import Mathlib

/-!
Shallow embedding of the shimmy-gpu-server proxy sources
(`lightweight-proxy.py`, `model-downloader-proxy.py`, `proxy-wrapper.py`).

Request and response bodies are JSON documents; we model them with a small
JSON value type whose numbers are rationals (the sources never do float
arithmetic on them — sampling parameters are only copied or defaulted).
-/

namespace Shimmy

/-- JSON values, as parsed by Flask's `request.json` / `resp.json()`. -/
inductive Json where
  | null
  | bool (b : Bool)
  | num (q : ℚ)
  | str (s : String)
  | arr (elems : List Json)
  | obj (fields : List (String × Json))

/-- Python truthiness of a JSON value (`if not data`, `if not model_repo`):
`None`, `False`, `0`, `""`, `[]`, `{}` are falsy, everything else truthy. -/
def Json.truthy : Json → Bool
  | .null => false
  | .bool b => b
  | .num q => decide (q ≠ 0)
  | .str s => decide (s ≠ "")
  | .arr elems => !elems.isEmpty
  | .obj fields => !fields.isEmpty

/-- `data.get(key)` on a Python value: defined (returning `None` for an
absent key) when the value is a dict, and raising `AttributeError`
(modelled as `none`) on any non-dict value. -/
def Json.pyGet : Json → String → Option Json
  | .obj fields, key => some (((fields.find? (fun kv => kv.1 == key)).map (fun kv => kv.2)).getD .null)
  | _, _ => none

/-- Field lookup inside a JSON object (for inspecting response bodies);
`none` when the value is not an object or the key is absent. -/
def Json.field (j : Json) (key : String) : Option Json :=
  match j with
  | .obj fields => (fields.find? (fun kv => kv.1 == key)).map (fun kv => kv.2)
  | _ => none

/-- Element lookup inside a JSON array. -/
def Json.elt (j : Json) (i : Nat) : Option Json :=
  match j with
  | .arr elems => elems[i]?
  | _ => none

/-- The first element of a response envelope's `choices` array. -/
def Json.choice0 (j : Json) : Option Json :=
  (j.field "choices").bind (fun c => c.elt 0)

/-- Python `str()` of a JSON value, as used by f-string interpolation in the
conflict message.  Only the `str` case is load-bearing for the claims. -/
def Json.pyStr : Json → String
  | .null => "None"
  | .bool true => "True"
  | .bool false => "False"
  | .num q => toString q
  | .str s => s
  | .arr _ => "<list>"
  | .obj _ => "<dict>"

/-- The Python type name of a JSON value, as it appears in the
`AttributeError` raised by `data.get(...)` on a non-dict body. -/
def Json.pyTypeName : Json → String
  | .null => "NoneType"
  | .bool _ => "bool"
  | .num q => if q.den = 1 then "int" else "float"
  | .str _ => "str"
  | .arr _ => "list"
  | .obj _ => "dict"

/-- The message of the `AttributeError` raised by `data.get('model')` when
the parsed body is not a dict (`model-downloader-proxy.py` line 105). -/
def attributeErrorMsg (data : Json) : String :=
  "'" ++ data.pyTypeName ++ "' object has no attribute 'get'"

/-! ## Download Coordinator state (`model-downloader-proxy.py` lines 29–35) -/

/-- The process-wide `current_download` dict: `{"in_progress": False,
"model": None, "filename": None}` at start.  `model`/`filename` hold the
raw JSON values taken from the accepted request body. -/
structure DownloadState where
  in_progress : Bool
  model : Option Json
  filename : Option Json

/-- The initial / cleared coordinator state. -/
def idleState : DownloadState := ⟨false, none, none⟩

/-! ## Artifact validation (`model-downloader-proxy.py` lines 37–46) -/

/-- The 4-byte GGUF magic `b'GGUF'`. -/
def ggufMagic : List Nat := [0x47, 0x47, 0x55, 0x46]

/-- The 4-byte legacy GGML magic `b'GGML'`. -/
def ggmlMagic : List Nat := [0x47, 0x47, 0x4D, 0x4C]

/-- `check_gguf_file`: read the first 4 bytes of the downloaded file and
compare against the two recognized magics.  The file content is modelled as
its byte list; the file was just written, so the `open` succeeds and the
exception branch (which returns `False`) is not reachable here. -/
def check_gguf_file (content : List Nat) : Bool :=
  let magic := content.take 4
  magic == ggufMagic || magic == ggmlMagic

/-! ## The pull route (`model-downloader-proxy.py` lines 91–190) -/

/-- The body of a `POST /v1/api/pull` request as seen by `data = request.json`:
either parsing raised (missing body, wrong content type, malformed JSON —
Flask raises and the route's outer `except Exception` handler runs, with
`excMsg` the `str(e)` of the exception) or it produced a JSON value. -/
inductive PullRequestBody where
  | parseError (excMsg : String)
  | parsed (data : Json)

/-- Outcome of the `pull_model` route handler itself (before the streamed
generator runs): either an immediate JSON error response
`{"status": "error", "error": errMsg}` with the given HTTP status code, or
the streamed download response has started for the given `model`/`filename`
values taken from the body. -/
inductive PullResult where
  | httpError (code : Nat) (errMsg : String)
  | streamStarted (model_repo filename : Json)

/-- `pull_model` (lines 100–190), as a function of the parsed request body
and the pre-call `current_download` state, returning its result and the
`current_download` state after the handler returns.  The `with download_lock`
blocks serialize the state accesses; each is modelled as one atomic
check-and-set on the state.  Note the outer `except Exception` handler
(lines 183–190) unconditionally resets `current_download` — even when the
exception (e.g. an `AttributeError` from `data.get` on a non-dict body, or a
JSON parse failure) occurred before this call ever acquired the Busy state. -/
def pull_model (body : PullRequestBody) (st : DownloadState) : PullResult × DownloadState :=
  match body with
  | .parseError excMsg => (.httpError 500 excMsg, ⟨false, none, none⟩)
  | .parsed data =>
    if !data.truthy then
      (.httpError 400 "Request body required", st)
    else
      match data.pyGet "model", data.pyGet "filename" with
      | some model_repo, some filename =>
        if !model_repo.truthy || !filename.truthy then
          (.httpError 400 "Both 'model' and 'filename' are required", st)
        else if st.in_progress then
          (.httpError 409 ("Download already in progress: "
              ++ (st.model.getD .null).pyStr ++ "/" ++ (st.filename.getD .null).pyStr), st)
        else
          (.streamStarted model_repo filename, ⟨true, some model_repo, some filename⟩)
      | _, _ => (.httpError 500 (attributeErrorMsg data), ⟨false, none, none⟩)

/-- A request body passes `pull_model`'s input validation: the parsed value
is truthy, `.get` works on it (it is a dict), and both `model` and
`filename` are truthy. -/
def bodyValid (data : Json) : Bool :=
  data.truthy &&
    match data.pyGet "model", data.pyGet "filename" with
    | some model_repo, some filename => model_repo.truthy && filename.truthy
    | _, _ => false

/-! ## The streamed download body (`model-downloader-proxy.py` lines 127–179) -/

/-- A progress event as yielded by the generator, one newline-delimited JSON
object per event (`starting` / `complete` / `error`). -/
inductive DownloadEvent where
  | starting (model filename : String)
  | complete (filename path : String) (size_mb : ℚ) (discovered : Bool)
  | error (msg : String)

/-- What the `hf_hub_download` call did: returned a local file (with the
given byte content), raised `HfHubHTTPError`, or raised some other
exception (also covers failures of the surrounding steps, e.g.
`os.makedirs`).  `msg` is the `str(e)` of the exception. -/
inductive FetchOutcome where
  | fetched (content : List Nat) (localPath : String)
  | hfHubError (msg : String)
  | raised (msg : String)

/-- `round(file_size / (1024 * 1024), 2)` over the rationals.  (Python
rounds the float half-to-even; on exact half-cent boundaries this rational
rounding may differ, which no claim depends on.) -/
def sizeMB (fileSize : Nat) : ℚ :=
  ((round ((fileSize : ℚ) / (1024 * 1024) * 100) : ℤ) : ℚ) / 100

/-- Everything observable about one completed run of the generator. -/
structure GenOutput where
  events : List DownloadEvent
  fileDeleted : Bool
  discoveryInvoked : Bool
  finalState : DownloadState

/-- The `try`/`except` part of the generator body (lines 129–173): the
`starting` event, then — depending on the fetch outcome — validation,
size computation, discovery and the `complete` event, or the error event of
the matching `except` clause.  Returns the events in order plus whether
`os.remove` ran and whether `trigger_shimmy_discover_and_restart` was
invoked (its boolean result is the oracle `discoverResult`). -/
def generateTry (model_repo filename : Json) (outcome : FetchOutcome)
    (discoverResult : Bool) : List DownloadEvent × Bool × Bool :=
  match outcome with
  | .fetched content localPath =>
    if check_gguf_file content then
      ([.starting model_repo.pyStr filename.pyStr,
        .complete filename.pyStr localPath (sizeMB content.length) discoverResult],
       false, true)
    else
      ([.starting model_repo.pyStr filename.pyStr,
        .error "Downloaded file is not a valid GGUF/GGML model"],
       true, false)
  | .hfHubError msg =>
    ([.starting model_repo.pyStr filename.pyStr, .error ("HuggingFace error: " ++ msg)],
     false, false)
  | .raised msg =>
    ([.starting model_repo.pyStr filename.pyStr, .error ("Download failed: " ++ msg)],
     false, false)

/-- The whole generator body including its `finally` block (lines 174–179):
whatever the `try` part did, the `finally` takes the lock and resets
`current_download` to idle with `model`/`filename` cleared.  `preState` is
the coordinator state when the generator runs (set Busy by the accept). -/
def generateBody (model_repo filename : Json) (outcome : FetchOutcome)
    (discoverResult : Bool) (_preState : DownloadState) : GenOutput :=
  let r := generateTry model_repo filename outcome discoverResult
  { events := r.1
    fileDeleted := r.2.1
    discoveryInvoked := r.2.2
    finalState := ⟨false, none, none⟩ }

/-- Whether an event is a `complete` event. -/
def DownloadEvent.isComplete : DownloadEvent → Bool
  | .complete _ _ _ _ => true
  | _ => false

/-! ## Schema Translator (`v1_completions` in all three files)

The inbound body fields the handlers read via `data.get(...)`.  Fields are
modelled with their expected types; an absent key (or, equivalently for
`.get`, a `None` value) is `none`. -/

/-- One element of the `messages` list; `msg.get('role', 'user')` and
`msg.get('content', '')` supply defaults for absent keys. -/
structure ChatMessage where
  role : Option String
  content : Option String

/-- The OpenAI-style inbound body for `/v1/completions` and
`/v1/chat/completions`.  The chat/completion discriminant is
`'messages' in data`, i.e. `messages.isSome`. -/
structure ExternalRequest where
  messages : Option (List ChatMessage)
  prompt : Option String
  model : Option String
  stream : Option Bool
  temperature : Option ℚ
  max_tokens : Option Int
  top_p : Option ℚ
  frequency_penalty : Option ℚ
  presence_penalty : Option ℚ

/-- A request with every field absent. -/
def emptyRequest : ExternalRequest :=
  ⟨none, none, none, none, none, none, none, none, none⟩

/-- `f"{msg.get('role', 'user')}: {msg.get('content', '')}"`. -/
def msgLine (msg : ChatMessage) : String :=
  msg.role.getD "user" ++ ": " ++ msg.content.getD ""

/-- Prompt extraction, identical in all three files: if `'messages' in data`
join the per-message lines with `"\n"`, else `data.get('prompt', '')`. -/
def derivePrompt (data : ExternalRequest) : String :=
  match data.messages with
  | some msgs => String.intercalate "\n" (msgs.map msgLine)
  | none => data.prompt.getD ""

/-- The JSON dict sent to the backend's `/api/generate`, as the ordered
key/value list of the Python dict literal. -/
abbrev NativeRequest := List (String × Json)

/-- The `shimmy_request` dict built in `lightweight-proxy.py` lines 130–136:
model, prompt, stream, temperature, max_tokens only. -/
def shimmy_request_lightweight (data : ExternalRequest) : NativeRequest :=
  [("model", .str (data.model.getD "")),
   ("prompt", .str (derivePrompt data)),
   ("stream", .bool (data.stream.getD false)),
   ("temperature", .num (data.temperature.getD (7 / 10))),
   ("max_tokens", .num ((data.max_tokens.getD 512 : Int) : ℚ))]

/-- The `shimmy_request` dict built in `model-downloader-proxy.py`
lines 274–280 (textually identical to the lightweight one). -/
def shimmy_request_downloader (data : ExternalRequest) : NativeRequest :=
  [("model", .str (data.model.getD "")),
   ("prompt", .str (derivePrompt data)),
   ("stream", .bool (data.stream.getD false)),
   ("temperature", .num (data.temperature.getD (7 / 10))),
   ("max_tokens", .num ((data.max_tokens.getD 512 : Int) : ℚ))]

/-- The `shimmy_request` dict built in `proxy-wrapper.py` lines 54–63:
adds `top_p` and the two penalties, and defaults `model` to `"phi3-lora"`. -/
def shimmy_request_wrapper (data : ExternalRequest) : NativeRequest :=
  [("model", .str (data.model.getD "phi3-lora")),
   ("prompt", .str (derivePrompt data)),
   ("stream", .bool (data.stream.getD false)),
   ("temperature", .num (data.temperature.getD (7 / 10))),
   ("max_tokens", .num ((data.max_tokens.getD 512 : Int) : ℚ)),
   ("top_p", .num (data.top_p.getD 1)),
   ("frequency_penalty", .num (data.frequency_penalty.getD 0)),
   ("presence_penalty", .num (data.presence_penalty.getD 0))]

/-- The backend call made by a handler: whether `requests.post` was given
`stream=True`, and the JSON payload it sent. -/
structure BackendCall where
  stream_kwarg : Bool
  payload : NativeRequest

/-- `v1_completions` in `lightweight-proxy.py` (lines 107–150): builds the
native request, performs one buffered `requests.post` (no `stream=True`
kwarg), parses the entire response body as one JSON document with
`resp.json()` and returns it with the backend's status code — for every
request, streaming or not. -/
def v1_completions_lightweight (data : ExternalRequest)
    (backendBody : Json) (backendStatus : Nat) : BackendCall × (Json × Nat) :=
  (⟨false, shimmy_request_lightweight data⟩, (backendBody, backendStatus))

/-- `v1_completions` in `model-downloader-proxy.py` (lines 258–292),
textually identical behavior to the lightweight variant. -/
def v1_completions_downloader (data : ExternalRequest)
    (backendBody : Json) (backendStatus : Nat) : BackendCall × (Json × Nat) :=
  (⟨false, shimmy_request_downloader data⟩, (backendBody, backendStatus))

/-- The backend's native generate response as read by
`shimmy_resp.get(...)` in `proxy-wrapper.py`. -/
structure GenerateResult where
  response : Option String
  prompt_eval_count : Option Int
  eval_count : Option Int

/-- The `openai_resp` envelope built by `proxy-wrapper.py` lines 93–126 for
a non-streaming request: chat envelope when `'messages' in data`, text
completion envelope otherwise.  `now` is `int(time.time())` and `respHash`
is Python's `hash(shimmy_resp.get('response', ''))`, both oracles. -/
def openai_resp_wrapper (data : ExternalRequest) (shimmy_resp : GenerateResult)
    (now : Int) (respHash : Int) : Json :=
  if data.messages.isSome then
    .obj [("id", .str ("chatcmpl-" ++ toString respHash)),
          ("object", .str "chat.completion"),
          ("created", .num (now : ℚ)),
          ("model", .str (data.model.getD "phi3-lora")),
          ("choices", .arr [.obj [
              ("index", .num 0),
              ("message", .obj [("role", .str "assistant"),
                                ("content", .str (shimmy_resp.response.getD ""))]),
              ("finish_reason", .str "stop")]]),
          ("usage", .obj [
              ("prompt_tokens", .num ((shimmy_resp.prompt_eval_count.getD 0 : Int) : ℚ)),
              ("completion_tokens", .num ((shimmy_resp.eval_count.getD 0 : Int) : ℚ)),
              ("total_tokens",
                .num ((shimmy_resp.prompt_eval_count.getD 0 + shimmy_resp.eval_count.getD 0 : Int) : ℚ))])]
  else
    .obj [("id", .str ("cmpl-" ++ toString respHash)),
          ("object", .str "text_completion"),
          ("created", .num (now : ℚ)),
          ("model", .str (data.model.getD "phi3-lora")),
          ("choices", .arr [.obj [
              ("text", .str (shimmy_resp.response.getD "")),
              ("index", .num 0),
              ("finish_reason", .str "stop")]])]

/-! ## Stream Relay (`v1_generate.generate` in `lightweight-proxy.py`
lines 57–71 and `model-downloader-proxy.py` lines 216–230) -/

/-- The terminal chunk `f'\x7b\x7b"error": "{str(e)}"\x7d\x7d\n'.encode()`
yielded when the backend call raises. -/
def errorChunk (msg : String) : String :=
  "\x7b\"error\": \"" ++ msg ++ "\"\x7d\n"

/-- The raw-passthrough relay generator: every truthy (non-empty) chunk the
backend delivered is forwarded unmodified; if the backend call failed or
raised mid-stream (`failure = some msg`, the chunks being those delivered
before the failure), the `except Exception` clause yields exactly one
terminal error chunk and the generator returns — no exception escapes to
the transport layer. -/
def v1_generate_stream (chunks : List String) (failure : Option String) : List String :=
  chunks.filter (fun c => c != "") ++
    match failure with
    | none => []
    | some msg => [errorChunk msg]

/-! ## Health routes -/

/-- What `requests.get(f"{SHIMMY_URL}/health", timeout=5)` did: a response
(status code and parsed JSON body) or a `RequestException`
(connection failure / timeout) with message `errMsg`. -/
inductive BackendHealth where
  | reachable (status : Nat) (body : Json)
  | unreachable (errMsg : String)

/-- `v1_health` in `lightweight-proxy.py` lines 24–39: proxy the backend's
health; on `RequestException` return
`(\x7b"status": "unhealthy", "error": str(e)\x7d, 503)`. -/
def v1_health_lightweight : BackendHealth → Json × Nat
  | .reachable status body => (body, status)
  | .unreachable errMsg =>
      (.obj [("status", .str "unhealthy"), ("error", .str errMsg)], 503)

/-- `v1_health` in `model-downloader-proxy.py` lines 192–204 (textually
identical to the lightweight one). -/
def v1_health_downloader : BackendHealth → Json × Nat
  | .reachable status body => (body, status)
  | .unreachable errMsg =>
      (.obj [("status", .str "unhealthy"), ("error", .str errMsg)], 503)

/-- `v1_health` in `proxy-wrapper.py` lines 20–29: same proxying, but its
handler returns `(\x7b"status": "error", "message": str(e)\x7d, 503)` —
status string `"error"`, and the message under the key `"message"`, not
`"error"`. -/
def v1_health_wrapper : BackendHealth → Json × Nat
  | .reachable status body => (body, status)
  | .unreachable errMsg =>
      (.obj [("status", .str "error"), ("message", .str errMsg)], 503)

end Shimmy

namespace Shimmy

/-! ## Theorems -/

/-- Helper: on a body that passes validation, a Busy pre-state makes the
pull route answer 409 with the in-flight job's values interpolated, and
leaves the state untouched. -/
theorem pull_model_busy (data : Json) (st : DownloadState)
    (hvalid : bodyValid data = true) (hbusy : st.in_progress = true) :
    pull_model (.parsed data) st
      = (.httpError 409 ("Download already in progress: "
          ++ (st.model.getD .null).pyStr ++ "/" ++ (st.filename.getD .null).pyStr), st) := by
  rcases hM : data.pyGet "model" with _ | m <;>
    rcases hF : data.pyGet "filename" with _ | f <;>
      simp only [bodyValid, hM, hF, Bool.and_eq_true] at hvalid
  · exact absurd hvalid.2 (by simp)
  · exact absurd hvalid.2 (by simp)
  · exact absurd hvalid.2 (by simp)
  · obtain ⟨ht, hm2, hf2⟩ := hvalid
    simp [pull_model, hM, hF, ht, hm2, hf2, hbusy]

/-- Helper: on a body that passes validation, an Idle pre-state makes the
pull route accept: it transitions to Busy recording the body's values and
proceeds to the streamed download. -/
theorem pull_model_idle (data : Json) (st : DownloadState)
    (hvalid : bodyValid data = true) (hidle : st.in_progress = false) :
    ∃ m f, data.pyGet "model" = some m ∧ data.pyGet "filename" = some f ∧
      pull_model (.parsed data) st = (.streamStarted m f, ⟨true, some m, some f⟩) := by
  rcases hM : data.pyGet "model" with _ | m <;>
    rcases hF : data.pyGet "filename" with _ | f <;>
      simp only [bodyValid, hM, hF, Bool.and_eq_true] at hvalid
  · exact absurd hvalid.2 (by simp)
  · exact absurd hvalid.2 (by simp)
  · exact absurd hvalid.2 (by simp)
  · obtain ⟨ht, hm2, hf2⟩ := hvalid
    exact ⟨m, f, rfl, rfl, by simp [pull_model, hM, hF, ht, hm2, hf2, hidle]⟩

/-- C1: for every completed invocation of the pull operation's download
body — success, artifact-validation failure, `HfHubHTTPError`, or any other
exception during the fetch — the `finally` block leaves `current_download`
with `in_progress = false` and `model`/`filename` cleared, whatever the
coordinator state was when the generator ran; the coordinator is never left
permanently Busy. -/
theorem download_cleanup_on_all_outcomes (model_repo filename : Json)
    (outcome : FetchOutcome) (discoverResult : Bool) (preState : DownloadState) :
    (generateBody model_repo filename outcome discoverResult preState).finalState.in_progress
        = false ∧
    (generateBody model_repo filename outcome discoverResult preState).finalState.model = none ∧
    (generateBody model_repo filename outcome discoverResult preState).finalState.filename
        = none :=
  ⟨rfl, rfl, rfl⟩

/-- C5: a fetched artifact whose first 4 bytes are neither the GGUF nor the
legacy GGML magic is deleted, the event stream carries the `starting` event
followed by the `error` event and nothing else (in particular no `complete`
event), and backend discovery is never invoked. -/
theorem invalid_magic_rejected (model_repo filename : Json) (content : List Nat)
    (localPath : String) (discoverResult : Bool) (preState : DownloadState)
    (h : check_gguf_file content = false) :
    (generateBody model_repo filename (.fetched content localPath) discoverResult
        preState).events
      = [.starting model_repo.pyStr filename.pyStr,
         .error "Downloaded file is not a valid GGUF/GGML model"] ∧
    (generateBody model_repo filename (.fetched content localPath) discoverResult
        preState).fileDeleted = true ∧
    (generateBody model_repo filename (.fetched content localPath) discoverResult
        preState).discoveryInvoked = false ∧
    ∀ e ∈ (generateBody model_repo filename (.fetched content localPath) discoverResult
        preState).events, e.isComplete = false := by
  refine ⟨?_, ?_, ?_, ?_⟩ <;>
    simp [generateBody, generateTry, h, DownloadEvent.isComplete]

/-- C5 witness: a concrete artifact starting with four zero bytes. -/
theorem invalid_magic_rejected_witness :
    check_gguf_file [0, 0, 0, 0] = false ∧
    (generateBody (.str "org/repo") (.str "model.Q4.gguf")
        (.fetched [0, 0, 0, 0] "/models/model.Q4.gguf") true idleState).fileDeleted = true ∧
    (generateBody (.str "org/repo") (.str "model.Q4.gguf")
        (.fetched [0, 0, 0, 0] "/models/model.Q4.gguf") true idleState).discoveryInvoked
      = false :=
  ⟨rfl,
   (invalid_magic_rejected (.str "org/repo") (.str "model.Q4.gguf") [0, 0, 0, 0]
      "/models/model.Q4.gguf" true idleState rfl).2.1,
   (invalid_magic_rejected (.str "org/repo") (.str "model.Q4.gguf") [0, 0, 0, 0]
      "/models/model.Q4.gguf" true idleState rfl).2.2.1⟩

/-- C7: when the backend call of the raw-passthrough streamed relay fails
or raises after delivering some chunks, the relay's output is exactly the
forwarded chunks followed by one final `\x7b"error": "<message>"\x7d`
object, which is the last chunk of the stream; the relay itself is a total
function — the `except Exception` clause means no exception reaches the
transport layer. -/
theorem stream_relay_terminal_error (chunks : List String) (msg : String) :
    v1_generate_stream chunks (some msg)
      = chunks.filter (fun c => c != "") ++ [errorChunk msg] ∧
    (v1_generate_stream chunks (some msg)).getLast? = some (errorChunk msg) := by
  refine ⟨rfl, ?_⟩
  simp [v1_generate_stream]

/-- C8 counterexample: in the wrapper variant (`proxy-wrapper.py`),
`GET /v1/health` with the backend unreachable returns 503 with body
`\x7b"status": "error", "message": ...\x7d` — the status string is not
`"unhealthy"` and there is no `"error"` field, contradicting the claim as
stated for every variant. -/
theorem health_wrapper_counterexample :
    (v1_health_wrapper (.unreachable "Connection refused")).2 = 503 ∧
    (v1_health_wrapper (.unreachable "Connection refused")).1.field "status"
      = some (.str "error") ∧
    (v1_health_wrapper (.unreachable "Connection refused")).1.field "status"
      ≠ some (.str "unhealthy") ∧
    (v1_health_wrapper (.unreachable "Connection refused")).1.field "error" = none := by
  refine ⟨rfl, rfl, ?_, rfl⟩
  intro h
  have h' : some (Json.str "error") = some (Json.str "unhealthy") := h
  simp at h'

/-- C8 as amended: with the backend unreachable, the lightweight and
downloader variants of `GET /v1/health` return 503 with a body whose
`status` is `"unhealthy"` and whose `error` field carries the failure
message; the wrapper variant also returns 503 but with `status` `"error"`
and the failure message under the `message` key. -/
theorem health_unreachable_per_variant (errMsg : String) :
    v1_health_lightweight (.unreachable errMsg)
      = (.obj [("status", .str "unhealthy"), ("error", .str errMsg)], 503) ∧
    v1_health_downloader (.unreachable errMsg)
      = (.obj [("status", .str "unhealthy"), ("error", .str errMsg)], 503) ∧
    v1_health_wrapper (.unreachable errMsg)
      = (.obj [("status", .str "error"), ("message", .str errMsg)], 503) :=
  ⟨rfl, rfl, rfl⟩

/-- C3: when `messages` is present with N ordered messages carrying
explicit `role`/`content`, the derived prompt is the `"role: content"`
lines joined by newline in original order (N = 0 yields the empty prompt,
whatever the `prompt` field holds); when `messages` is absent, the derived
prompt is the `prompt` field verbatim, or `""` if that too is absent. -/
theorem derived_prompt_spec (pairs : List (String × String))
    (promptField : Option String) :
    derivePrompt { emptyRequest with
        messages := some (pairs.map fun rc => ⟨some rc.1, some rc.2⟩),
        prompt := promptField }
      = String.intercalate "\n" (pairs.map fun rc => rc.1 ++ ": " ++ rc.2) ∧
    derivePrompt { emptyRequest with messages := some [], prompt := promptField } = "" ∧
    (∀ p, derivePrompt { emptyRequest with prompt := some p } = p) ∧
    derivePrompt emptyRequest = "" := by
  refine ⟨?_, rfl, fun p => rfl, rfl⟩
  have h : (msgLine ∘ fun rc : String × String => (⟨some rc.1, some rc.2⟩ : ChatMessage))
      = fun rc : String × String => rc.1 ++ ": " ++ rc.2 :=
    funext fun rc => rfl
  simp only [derivePrompt, List.map_map, h]

/-- C4: in the wrapper variant, for every non-streaming request with
`messages` present, the returned envelope has object `"chat.completion"`,
`choices[0].message` with role `"assistant"` and content equal to the
backend's `response`, finish reason `"stop"`, and
`usage.total_tokens = prompt_eval_count + eval_count`; on the spec's
scenario (counts 3 and 2, response `"hello"`) total tokens are 5 and the
content is `"hello"`. -/
theorem chat_envelope_fields (msgs : List ChatMessage) (modelField : Option String)
    (resp : String) (pec ec : Int) (now respHash : Int) :
    (openai_resp_wrapper { emptyRequest with messages := some msgs, model := modelField }
        ⟨some resp, some pec, some ec⟩ now respHash).field "object"
      = some (.str "chat.completion") ∧
    (((openai_resp_wrapper { emptyRequest with messages := some msgs, model := modelField }
        ⟨some resp, some pec, some ec⟩ now respHash).choice0.bind
          (fun c => c.field "message")).bind (fun m => m.field "content"))
      = some (.str resp) ∧
    (((openai_resp_wrapper { emptyRequest with messages := some msgs, model := modelField }
        ⟨some resp, some pec, some ec⟩ now respHash).choice0.bind
          (fun c => c.field "message")).bind (fun m => m.field "role"))
      = some (.str "assistant") ∧
    ((openai_resp_wrapper { emptyRequest with messages := some msgs, model := modelField }
        ⟨some resp, some pec, some ec⟩ now respHash).choice0.bind
          (fun c => c.field "finish_reason"))
      = some (.str "stop") ∧
    (((openai_resp_wrapper { emptyRequest with messages := some msgs, model := modelField }
        ⟨some resp, some pec, some ec⟩ now respHash).field "usage").bind
          (fun u => u.field "total_tokens"))
      = some (.num ((pec + ec : Int) : ℚ)) ∧
    (((openai_resp_wrapper { emptyRequest with messages := some [⟨some "user", some "hi"⟩] }
        ⟨some "hello", some 3, some 2⟩ now respHash).field "usage").bind
          (fun u => u.field "total_tokens"))
      = some (.num 5) ∧
    (((openai_resp_wrapper { emptyRequest with messages := some [⟨some "user", some "hi"⟩] }
        ⟨some "hello", some 3, some 2⟩ now respHash).choice0.bind
          (fun c => c.field "message")).bind (fun m => m.field "content"))
      = some (.str "hello") :=
  ⟨rfl, rfl, rfl, rfl, rfl, rfl, rfl⟩

/-- C6 counterexample: the lightweight variant's translated native request
carries only `model`, `prompt`, `stream`, `temperature`, `max_tokens` —
`top_p`, `frequency_penalty` and `presence_penalty` are absent from the
dict it sends, so the claim's list of carried parameters fails on this
variant (the downloader variant builds the same dict). -/
theorem sampling_defaults_counterexample :
    (shimmy_request_lightweight emptyRequest).map Prod.fst
      = ["model", "prompt", "stream", "temperature", "max_tokens"] ∧
    (shimmy_request_lightweight emptyRequest).lookup "top_p" = none ∧
    (shimmy_request_lightweight emptyRequest).lookup "frequency_penalty" = none ∧
    (shimmy_request_lightweight emptyRequest).lookup "presence_penalty" = none ∧
    (shimmy_request_downloader emptyRequest).lookup "top_p" = none :=
  ⟨rfl, rfl, rfl, rfl, rfl⟩

/-- C6 as amended: every variant's translation is total (a total function
by construction) and, on a request with all sampling fields absent, carries
`stream = false`, `temperature = 0.7` and `max_tokens = 512`; the wrapper
variant additionally carries `top_p = 1.0`, `frequency_penalty = 0.0`,
`presence_penalty = 0.0` and defaults `model` to `"phi3-lora"`, while the
lightweight and downloader variants default `model` to `""` and omit
`top_p` and the penalty fields entirely. -/
theorem sampling_defaults_per_variant (messagesField : Option (List ChatMessage))
    (promptField modelField : Option String) (streamField : Option Bool) :
    (shimmy_request_wrapper
        ⟨messagesField, promptField, modelField, streamField, none, none, none, none, none⟩).lookup "model"
      = some (.str (modelField.getD "phi3-lora")) ∧
    (shimmy_request_wrapper
        ⟨messagesField, promptField, modelField, streamField, none, none, none, none, none⟩).lookup "stream"
      = some (.bool (streamField.getD false)) ∧
    (shimmy_request_wrapper
        ⟨messagesField, promptField, modelField, streamField, none, none, none, none, none⟩).lookup "temperature"
      = some (.num (7 / 10)) ∧
    (shimmy_request_wrapper
        ⟨messagesField, promptField, modelField, streamField, none, none, none, none, none⟩).lookup "max_tokens"
      = some (.num 512) ∧
    (shimmy_request_wrapper
        ⟨messagesField, promptField, modelField, streamField, none, none, none, none, none⟩).lookup "top_p"
      = some (.num 1) ∧
    (shimmy_request_wrapper
        ⟨messagesField, promptField, modelField, streamField, none, none, none, none, none⟩).lookup "frequency_penalty"
      = some (.num 0) ∧
    (shimmy_request_wrapper
        ⟨messagesField, promptField, modelField, streamField, none, none, none, none, none⟩).lookup "presence_penalty"
      = some (.num 0) ∧
    (shimmy_request_lightweight
        ⟨messagesField, promptField, modelField, streamField, none, none, none, none, none⟩).lookup "model"
      = some (.str (modelField.getD "")) ∧
    (shimmy_request_lightweight
        ⟨messagesField, promptField, modelField, streamField, none, none, none, none, none⟩).lookup "temperature"
      = some (.num (7 / 10)) ∧
    (shimmy_request_lightweight
        ⟨messagesField, promptField, modelField, streamField, none, none, none, none, none⟩).lookup "max_tokens"
      = some (.num 512) ∧
    (shimmy_request_lightweight
        ⟨messagesField, promptField, modelField, streamField, none, none, none, none, none⟩).map Prod.fst
      = ["model", "prompt", "stream", "temperature", "max_tokens"] ∧
    (shimmy_request_downloader
        ⟨messagesField, promptField, modelField, streamField, none, none, none, none, none⟩).map Prod.fst
      = ["model", "prompt", "stream", "temperature", "max_tokens"] :=
  ⟨rfl, rfl, rfl, rfl, rfl, rfl, rfl, rfl, rfl, rfl, rfl, rfl⟩

/-- C10: in the raw-JSON completions variants (lightweight and downloader),
every `/v1/completions` / `/v1/chat/completions` request — including one
with `stream = true` — forwards the caller's `stream` value in the payload
but performs a buffered `requests.post` (no `stream=True` kwarg), and the
route returns the backend's entire body parsed as one JSON document with
the backend's status code; no chunk-by-chunk relay exists on these
routes. -/
theorem completions_buffered_call (data : ExternalRequest) (backendBody : Json)
    (backendStatus : Nat) :
    (v1_completions_lightweight data backendBody backendStatus).1.stream_kwarg = false ∧
    (v1_completions_lightweight data backendBody backendStatus).1.payload.lookup "stream"
      = some (.bool (data.stream.getD false)) ∧
    (v1_completions_lightweight data backendBody backendStatus).2
      = (backendBody, backendStatus) ∧
    (v1_completions_downloader data backendBody backendStatus).1.stream_kwarg = false ∧
    (v1_completions_downloader data backendBody backendStatus).1.payload.lookup "stream"
      = some (.bool (data.stream.getD false)) ∧
    (v1_completions_downloader data backendBody backendStatus).2
      = (backendBody, backendStatus) ∧
    (v1_completions_lightweight { data with stream := some true }
        backendBody backendStatus).1.payload.lookup "stream" = some (.bool true) ∧
    (v1_completions_lightweight { data with stream := some true }
        backendBody backendStatus).1.stream_kwarg = false :=
  ⟨rfl, rfl, rfl, rfl, rfl, rfl, rfl, rfl⟩

/-- C2: a pull request arriving while `in_progress` is true gets a 409
whose message names the in-flight job's model and filename, performs no
fetch (the result is the error response, never `streamStarted`, and only
`streamStarted` runs the download generator), and leaves the state
unchanged; and of two pull calls serialized by the download lock starting
from Idle, exactly one proceeds to the fetch step — the first transitions
to Busy and starts the stream, the second receives the 409 naming the
first's job and changes nothing. -/
theorem pull_conflict_and_mutual_exclusion (data : Json) (st : DownloadState)
    (mJ fJ : Json) (hvalid : bodyValid data = true) (hbusy : st.in_progress = true)
    (hm : st.model = some mJ) (hf : st.filename = some fJ) :
    pull_model (.parsed data) st
      = (.httpError 409 ("Download already in progress: "
          ++ mJ.pyStr ++ "/" ++ fJ.pyStr), st) ∧
    ∀ d1 d2 : Json, bodyValid d1 = true → bodyValid d2 = true →
      ∃ m1 f1,
        (pull_model (.parsed d1) idleState).1 = .streamStarted m1 f1 ∧
        pull_model (.parsed d2) (pull_model (.parsed d1) idleState).2
          = (.httpError 409 ("Download already in progress: "
              ++ m1.pyStr ++ "/" ++ f1.pyStr),
             (pull_model (.parsed d1) idleState).2) := by
  constructor
  · have h := pull_model_busy data st hvalid hbusy
    rw [hm, hf] at h
    simpa using h
  · intro d1 d2 h1 h2
    obtain ⟨m1, f1, hM1, hF1, heq⟩ := pull_model_idle d1 idleState h1 rfl
    refine ⟨m1, f1, by rw [heq], ?_⟩
    rw [heq]
    have hb := pull_model_busy d2 ⟨true, some m1, some f1⟩ h2 rfl
    simpa using hb

/-- C2 witness: a second, valid pull request hitting a busy coordinator. -/
theorem pull_conflict_and_mutual_exclusion_witness :
    bodyValid (Json.obj [("model", Json.str "org/repoB"), ("filename", Json.str "b.gguf")])
      = true ∧
    (DownloadState.mk true (some (Json.str "org/repoA")) (some (Json.str "a.gguf"))).in_progress
      = true ∧
    pull_model
        (.parsed (Json.obj [("model", Json.str "org/repoB"), ("filename", Json.str "b.gguf")]))
        ⟨true, some (Json.str "org/repoA"), some (Json.str "a.gguf")⟩
      = (.httpError 409 ("Download already in progress: "
          ++ (Json.str "org/repoA").pyStr ++ "/" ++ (Json.str "a.gguf").pyStr),
         ⟨true, some (Json.str "org/repoA"), some (Json.str "a.gguf")⟩) :=
  ⟨rfl, rfl,
   (pull_conflict_and_mutual_exclusion
      (Json.obj [("model", Json.str "org/repoB"), ("filename", Json.str "b.gguf")])
      ⟨true, some (Json.str "org/repoA"), some (Json.str "a.gguf")⟩
      (Json.str "org/repoA") (Json.str "a.gguf") rfl rfl rfl rfl).1⟩

/-- C9: the validation paths the claim describes.  A falsy parsed body and
a dict lacking a non-empty `model`/`filename` do return 400 with the state
untouched — but a body that is valid JSON yet not an object (here the array
`[1]`), or an unparseable body, raises inside the handler and the outer
`except Exception` clause then returns 500 (not 400) and resets
`current_download`, clobbering a Busy state owned by a concurrent
download. -/
theorem pull_malformed_body_clobbers_state :
    (pull_model (.parsed (Json.obj []))
        ⟨true, some (.str "m0"), some (.str "f0")⟩
      = (.httpError 400 "Request body required",
         ⟨true, some (.str "m0"), some (.str "f0")⟩)) ∧
    (pull_model (.parsed (Json.obj [("model", .str "a")]))
        ⟨true, some (.str "m0"), some (.str "f0")⟩
      = (.httpError 400 "Both 'model' and 'filename' are required",
         ⟨true, some (.str "m0"), some (.str "f0")⟩)) ∧
    (pull_model (.parsed (Json.arr [.num 1]))
        ⟨true, some (.str "m0"), some (.str "f0")⟩
      = (.httpError 500 "'list' object has no attribute 'get'",
         ⟨false, none, none⟩)) ∧
    (pull_model (.parseError "400 Bad Request: Failed to decode JSON object")
        ⟨true, some (.str "m0"), some (.str "f0")⟩
      = (.httpError 500 "400 Bad Request: Failed to decode JSON object",
         ⟨false, none, none⟩)) :=
  ⟨rfl, rfl, rfl, rfl⟩

end Shimmy
